import Mathlib

/-!
Verification of the FHIR ETL normalization layer.

The embedding models `src/parse_fhir.py` (value extractors and resource
parsers over JSON-like Python values) and `src/load_database.py` (SQLite
schema, load orchestration, verification) as executable Lean functions.
Python expressions that can raise are modelled in the `Except String`
monad; a `.error` value corresponds to a raised Python exception.
-/

namespace FhirETL

/-- JSON-like Python values as produced by `json.load`: `None`, strings,
numbers (modelled as integers; the numeric magnitude plays no role in any
claim), lists and string-keyed dicts. -/
inductive PyVal where
  | none : PyVal
  | str (s : String) : PyVal
  | int (n : Int) : PyVal
  | list (elems : List PyVal) : PyVal
  | dict (kvs : List (String × PyVal)) : PyVal
deriving Repr, Inhabited

mutual

/-- Structural equality on Python values (Python `==` on JSON trees). -/
def beqPyVal : PyVal → PyVal → Bool
  | .none, .none => true
  | .str a, .str b => a == b
  | .int a, .int b => a == b
  | .list xs, .list ys => beqPyList xs ys
  | .dict xs, .dict ys => beqPyKVs xs ys
  | _, _ => false

def beqPyList : List PyVal → List PyVal → Bool
  | [], [] => true
  | x :: xs, y :: ys => beqPyVal x y && beqPyList xs ys
  | _, _ => false

def beqPyKVs : List (String × PyVal) → List (String × PyVal) → Bool
  | [], [] => true
  | (k1, v1) :: xs, (k2, v2) :: ys => k1 == k2 && beqPyVal v1 v2 && beqPyKVs xs ys
  | _, _ => false

end

instance : BEq PyVal := ⟨beqPyVal⟩

/-- Python truthiness: `None`, `""`, `0`, `[]`, `{}` are falsy. -/
def truthy : PyVal → Bool
  | .none => false
  | .str s => s ≠ ""
  | .int n => n ≠ 0
  | .list xs => ¬ xs.isEmpty
  | .dict kvs => ¬ kvs.isEmpty

/-- Lookup in a dict's key/value list (Python dicts have unique keys). -/
def dictLookup (kvs : List (String × PyVal)) (k : String) : Option PyVal :=
  (kvs.find? (fun p => p.1 == k)).map (·.2)

/-- Python `v.get(k, dflt)`: raises `AttributeError` when `v` is not a dict. -/
def pyGet (v : PyVal) (k : String) (dflt : PyVal) : Except String PyVal :=
  match v with
  | .dict kvs => .ok ((dictLookup kvs k).getD dflt)
  | _ => .error "AttributeError: get"

/-- Python `v[k]` subscription on a dict: raises `KeyError` when absent,
`TypeError` when `v` is not a dict. -/
def pyGetItem (v : PyVal) (k : String) : Except String PyVal :=
  match v with
  | .dict kvs =>
      match dictLookup kvs k with
      | some x => .ok x
      | Option.none => .error "KeyError"
  | _ => .error "TypeError: subscript"

/-- Python `len(v)`: defined on strings, lists and dicts, raises otherwise. -/
def pyLen (v : PyVal) : Except String Nat :=
  match v with
  | .str s => .ok s.length
  | .list xs => .ok xs.length
  | .dict kvs => .ok kvs.length
  | _ => .error "TypeError: len"

/-- Is `sep` a prefix of `cs`? -/
def isPrefixChars : List Char → List Char → Bool
  | [], _ => true
  | _ :: _, [] => false
  | a :: sep, c :: cs => a == c && isPrefixChars sep cs

/-- Does `sub` occur as a contiguous substring of `hay`? -/
def containsChars (sub : List Char) : List Char → Bool
  | [] => isPrefixChars sub []
  | c :: rest => isPrefixChars sub (c :: rest) || containsChars sub rest

/-- Python `s.split(sep)` on character lists: scan left to right, cut at
each non-overlapping occurrence of `sep`.  The fuel argument (the hay
length at the start) only makes the recursion structural; it is never
exhausted for a non-empty separator. -/
def splitChars (sep : List Char) : Nat → List Char → List Char → List (List Char)
  | 0, hay, cur => [cur.reverse ++ hay]
  | fuel + 1, hay, cur =>
      match hay with
      | [] => [cur.reverse]
      | c :: rest =>
          if isPrefixChars sep hay then
            cur.reverse :: splitChars sep fuel (hay.drop sep.length) []
          else
            splitChars sep fuel rest (c :: cur)

/-- Python `s.split(sep)` for strings. -/
def strSplit (s sep : String) : List String :=
  (splitChars sep.toList s.toList.length s.toList []).map (fun cs => String.mk cs)

/-- Python substring test `sub in s` for strings. -/
def strContainsSub (s sub : String) : Bool :=
  containsChars sub.toList s.toList

/-- Python `needle in v` for a string needle: key test on dicts, substring
test on strings, membership on lists; raises on other receivers. -/
def pyContains (v : PyVal) (needle : String) : Except String Bool :=
  match v with
  | .dict kvs => .ok (dictLookup kvs needle).isSome
  | .str s => .ok (strContainsSub s needle)
  | .list xs => .ok (xs.any (fun x => beqPyVal x (.str needle)))
  | _ => .error "TypeError: in"

/-- Python indexing `v[i]` with negative-index wraparound on lists and
strings; raises `IndexError` out of range, `TypeError` on other values. -/
def pyIndex (v : PyVal) (i : Int) : Except String PyVal :=
  match v with
  | .list xs =>
      let j : Int := if i < 0 then (xs.length : Int) + i else i
      if h : 0 ≤ j ∧ j < (xs.length : Int) then
        .ok (xs.get ⟨j.toNat, by omega⟩)
      else .error "IndexError"
  | .str s =>
      let cs := s.toList
      let j : Int := if i < 0 then (cs.length : Int) + i else i
      if h : 0 ≤ j ∧ j < (cs.length : Int) then
        .ok (.str (String.singleton (cs.get ⟨j.toNat, by omega⟩)))
      else .error "IndexError"
  | _ => .error "TypeError: index"

/-- Python iteration `for x in v`: lists yield elements, strings yield
one-character strings, dicts yield their keys; other values raise. -/
def pyIter (v : PyVal) : Except String (List PyVal) :=
  match v with
  | .list xs => .ok xs
  | .str s => .ok (s.toList.map (fun c => .str (String.singleton c)))
  | .dict kvs => .ok (kvs.map (fun p => .str p.1))
  | _ => .error "TypeError: not iterable"

/-- Python `v.split(sep)` for a string receiver (raises otherwise). -/
def pySplit (v : PyVal) (sep : String) : Except String (List String) :=
  match v with
  | .str s => .ok (strSplit s sep)
  | _ => .error "AttributeError: split"

/-- Python `str(v)` as used by the f-string building component ids. The
ids occurring in the data are strings (or absent); container rendering is
abbreviated since no claim exercises it. -/
def pyStr : PyVal → String
  | .none => "None"
  | .str s => s
  | .int n => toString n
  | .list _ => "[...]"
  | .dict _ => "{...}"

/-- `v == "lit"` in Python: true only for the equal string, never raises. -/
def isStrEq (v : PyVal) (lit : String) : Bool :=
  match v with
  | .str s => s == lit
  | _ => false

/-- Is the value Python `None`? -/
def isNone : PyVal → Bool
  | .none => true
  | _ => false

/-! ### Reduction lemmas for the `Except` monad -/

@[simp] theorem ok_bind {α β : Type} (a : α) (f : α → Except String β) :
    (Except.ok a >>= f) = f a := rfl

@[simp] theorem error_bind {α β : Type} (e : String) (f : α → Except String β) :
    ((Except.error e : Except String α) >>= f) = .error e := rfl

@[simp] theorem map_ok {α β : Type} (g : α → β) (a : α) :
    (g <$> (Except.ok a : Except String α)) = .ok (g a) := rfl

@[simp] theorem map_error {α β : Type} (g : α → β) (e : String) :
    (g <$> (Except.error e : Except String α)) = .error e := rfl

@[simp] theorem pure_eq_ok {α : Type} (a : α) :
    (pure a : Except String α) = .ok a := rfl

/-- Inversion of a successful `Except` bind. -/
theorem bind_ok_iff {α β : Type} {x : Except String α} {f : α → Except String β} {b : β} :
    (x >>= f) = .ok b ↔ ∃ a, x = .ok a ∧ f a = .ok b := by
  cases x <;> simp [Except.bind]

/-! ## Value extractors (`parse_fhir.py` lines 11-77) -/

/-- `extract_reference_id`: pull the bare id out of a FHIR reference dict,
preferring the `urn:uuid:` form, then the slash form, else the raw string. -/
def extract_reference_id (reference_dict : PyVal) : Except String PyVal := do
  if ¬ truthy reference_dict then
    return .none
  let reference ← pyGet reference_dict "reference" (.str "")
  let hasUrn ← pyContains reference "urn:uuid:"
  if hasUrn then
    let parts ← pySplit reference "urn:uuid:"
    return .str (parts.getLastD "")
  let hasSlash ← pyContains reference "/"
  if hasSlash then
    let parts ← pySplit reference "/"
    return .str (parts.getLastD "")
  return reference

/-- `safe_get_coding`: (code, display) of the `index`-th entry of a
CodeableConcept's coding list, or (None, None) when unavailable. -/
def safe_get_coding (codeable_concept : PyVal) (index : Int := 0) :
    Except String (PyVal × PyVal) := do
  if ¬ truthy codeable_concept then
    return (.none, .none)
  let coding_list ← pyGet codeable_concept "coding" (.list [])
  if ¬ truthy coding_list then
    return (.none, .none)
  let n ← pyLen coding_list
  if (n : Int) ≤ index then
    return (.none, .none)
  let coding ← pyIndex coding_list index
  let code ← pyGet coding "code" .none
  let display ← pyGet coding "display" .none
  return (code, display)

/-- Inner loop shared by `extract_race` / `extract_ethnicity`: scan nested
extensions for one whose url equals "text" and return its valueString. -/
def innerTextLoop : List PyVal → Except String (Option PyVal)
  | [] => .ok Option.none
  | inner_ext :: rest => do
      let u ← pyGet inner_ext "url" .none
      if isStrEq u "text" then
        let v ← pyGet inner_ext "valueString" .none
        return some v
      else
        innerTextLoop rest

/-- Outer loop shared by `extract_race` / `extract_ethnicity`: scan the
top-level extension list for an entry whose url contains `marker`, then
search its nested extensions; continue scanning when not found. -/
def usCoreLoop (marker : String) : List PyVal → Except String PyVal
  | [] => .ok .none
  | ext :: rest => do
      let url ← pyGet ext "url" (.str "")
      let hit ← pyContains url marker
      if hit then
        let inner ← pyGet ext "extension" (.list [])
        let items ← pyIter inner
        match ← innerTextLoop items with
        | some v => return v
        | Option.none => usCoreLoop marker rest
      else
        usCoreLoop marker rest

/-- `extract_race`: race text from the us-core-race extension tree. -/
def extract_race (patient_resource : PyVal) : Except String PyVal := do
  let extensions ← pyGet patient_resource "extension" (.list [])
  let items ← pyIter extensions
  usCoreLoop "us-core-race" items

/-- `extract_ethnicity`: ethnicity text from the us-core-ethnicity tree. -/
def extract_ethnicity (patient_resource : PyVal) : Except String PyVal := do
  let extensions ← pyGet patient_resource "extension" (.list [])
  let items ← pyIter extensions
  usCoreLoop "us-core-ethnicity" items

/-! ## Flat records (one structure per DataFrame row shape) -/

/-- One row of the patients DataFrame. -/
structure PatientRec where
  id : PyVal
  given_name : PyVal
  family_name : PyVal
  gender : PyVal
  birth_date : PyVal
  race : PyVal
  ethnicity : PyVal
  city : PyVal
  state : PyVal
deriving Repr

/-- One row of the conditions DataFrame. -/
structure CondRec where
  id : PyVal
  patient_id : PyVal
  code : PyVal
  display : PyVal
  clinical_status : PyVal
  onset_date : PyVal
deriving Repr

/-- One row of the observations DataFrame. -/
structure ObsRec where
  id : PyVal
  patient_id : PyVal
  code : PyVal
  display : PyVal
  value : PyVal
  unit : PyVal
  effective_date : PyVal
  category : PyVal
deriving Repr

/-- One row of the encounters DataFrame. -/
structure EncRec where
  id : PyVal
  patient_id : PyVal
  encounter_class : PyVal
  type_display : PyVal
  start_date : PyVal
  end_date : PyVal
deriving Repr

/-- One row of the medication_requests DataFrame. -/
structure MedRec where
  id : PyVal
  patient_id : PyVal
  medication_code : PyVal
  medication_display : PyVal
  authored_on : PyVal
  status : PyVal
deriving Repr

/-! ## Parser skeleton

Each parser loops over files; `json.load` failures and any exception
raised while processing a file's entries are caught by the per-file
`try/except`, logged, and the loop continues.  The `records` list lives
outside the `try`, so records appended before a mid-file exception are
kept.  A file is given as `Except String PyVal`: `.error` models an
unreadable or JSON-malformed file. -/

/-- Run one parser's per-file body over all files, counting caught
exceptions (the per-file `except` branch) instead of aborting. -/
def runParser {α : Type} (pf : PyVal → List α × Option String) :
    List (Except String PyVal) → List α × Nat
  | [] => ([], 0)
  | f :: rest =>
      match f with
      | .error _ =>
          ((runParser pf rest).1, (runParser pf rest).2 + 1)
      | .ok bundle =>
          ((pf bundle).1 ++ (runParser pf rest).1,
           (runParser pf rest).2 + (if (pf bundle).2.isSome then 1 else 0))

/-- `bundle.get('entry', [])` followed by the `for entry in ...` loop
header: yields the entries iterated over, or the raised exception. -/
def fileEntries (bundle : PyVal) : Except String (List PyVal) := do
  let e ← pyGet bundle "entry" (.list [])
  pyIter e

/-! ## Patient parser (`parse_patients`, lines 84-133) -/

/-- Build one patient record from a `Patient` resource (the body of the
matching branch of the entry loop). -/
def patientRecord (resource : PyVal) : Except String PatientRec := do
  let name_list ← pyGet resource "name" (.list [.dict []])
  let name ← if truthy name_list then pyIndex name_list 0 else pure (.dict [])
  let given_list ← pyGet name "given" (.list [.str ""])
  let given_name ← pyIndex given_list 0
  let family_name ← pyGet name "family" (.str "")
  let address_list ← pyGet resource "address" (.list [.dict []])
  let address ← if truthy address_list then pyIndex address_list 0 else pure (.dict [])
  let pid ← pyGet resource "id" .none
  let gender ← pyGet resource "gender" .none
  let birth ← pyGet resource "birthDate" .none
  let race ← extract_race resource
  let eth ← extract_ethnicity resource
  let city ← pyGet address "city" .none
  let state ← pyGet address "state" .none
  return { id := pid, given_name := given_name, family_name := family_name,
           gender := gender, birth_date := birth, race := race,
           ethnicity := eth, city := city, state := state }

/-- Entry loop of `parse_patients`: skip non-Patient resources, emit the
first Patient record and `break`. -/
def patientEntries : List PyVal → List PatientRec × Option String
  | [] => ([], Option.none)
  | e :: rest =>
      match (do
        let resource ← pyGet e "resource" (.dict [])
        let rt ← pyGet resource "resourceType" .none
        pure (resource, rt) : Except String (PyVal × PyVal)) with
      | .error err => ([], some err)
      | .ok (resource, rt) =>
          if isStrEq rt "Patient" then
            match patientRecord resource with
            | .error err => ([], some err)
            | .ok r => ([r], Option.none)
          else
            patientEntries rest

/-- Per-file body of `parse_patients`. -/
def patientsFile (bundle : PyVal) : List PatientRec × Option String :=
  match fileEntries bundle with
  | .error err => ([], some err)
  | .ok entries => patientEntries entries

/-- `parse_patients`: records plus number of per-file errors logged. -/
def parse_patients (files : List (Except String PyVal)) : List PatientRec × Nat :=
  runParser patientsFile files

/-! ## Condition parser (`parse_conditions`, lines 136-175) -/

/-- Process one entry of `parse_conditions`: `none` when the entry is not
a Condition resource. -/
def condEntry (e : PyVal) : Except String (Option CondRec) := do
  let resource ← pyGet e "resource" (.dict [])
  let rt ← pyGet resource "resourceType" .none
  if ¬ isStrEq rt "Condition" then
    return Option.none
  let cd ← safe_get_coding (← pyGet resource "code" .none)
  let st ← safe_get_coding (← pyGet resource "clinicalStatus" .none)
  let rid ← pyGet resource "id" .none
  let pid ← extract_reference_id (← pyGet resource "subject" .none)
  let onset ← pyGet resource "onsetDateTime" .none
  return some { id := rid, patient_id := pid, code := cd.1, display := cd.2,
                clinical_status := st.1, onset_date := onset }

/-- Entry loop of `parse_conditions`: appends already-built records even
when a later entry raises. -/
def condEntries : List PyVal → List CondRec × Option String
  | [] => ([], Option.none)
  | e :: rest =>
      match condEntry e with
      | .error err => ([], some err)
      | .ok Option.none => condEntries rest
      | .ok (some r) =>
          let (rs, e?) := condEntries rest
          (r :: rs, e?)

/-- Per-file body of `parse_conditions`. -/
def condFile (bundle : PyVal) : List CondRec × Option String :=
  match fileEntries bundle with
  | .error err => ([], some err)
  | .ok entries => condEntries entries

/-- `parse_conditions`. -/
def parse_conditions (files : List (Except String PyVal)) : List CondRec × Nat :=
  runParser condFile files

/-! ## Observation parser (`parse_observations`, lines 178-262) -/

/-- Shared tail of an observation record: id, patient reference and
effective date are read from the parent resource at append time. -/
def obsMainRecord (resource code display value unitv category_code : PyVal) :
    Except String ObsRec := do
  let rid ← pyGet resource "id" .none
  let pid ← extract_reference_id (← pyGet resource "subject" .none)
  let eff ← pyGet resource "effectiveDateTime" .none
  return { id := rid, patient_id := pid, code := code, display := display,
           value := value, unit := unitv, effective_date := eff,
           category := category_code }

/-- One iteration of the component fan-out loop before the positional id
suffix is attached: the component's own code/display/value/unit, the
parent's raw id, patient reference, effective date and category. -/
def compCore (resource category_code : PyVal) (comp : PyVal) :
    Except String ObsRec := do
  let cd ← safe_get_coding (← pyGet comp "code" .none)
  let hasVQ ← pyContains comp "valueQuantity"
  let cvu ← if hasVQ then do
      let q ← pyGetItem comp "valueQuantity"
      let v ← pyGet q "value" .none
      let u ← pyGet q "unit" .none
      pure (v, u)
    else pure (PyVal.none, PyVal.none)
  let rid ← pyGet resource "id" .none
  let pid ← extract_reference_id (← pyGet resource "subject" .none)
  let eff ← pyGet resource "effectiveDateTime" .none
  return { id := rid, patient_id := pid,
           code := cd.1, display := cd.2, value := cvu.1, unit := cvu.2,
           effective_date := eff, category := category_code }

/-- One iteration of the component fan-out loop: the synthesized id is
the stringified parent id, a dash, and the position (`f-string` of the
source, line 236). -/
def compStep (resource category_code : PyVal) (idx : Nat) (comp : PyVal) :
    Except String ObsRec :=
  (compCore resource category_code comp).map
    (fun r => { r with id := .str (pyStr r.id ++ "-" ++ toString idx) })

/-- `for idx, comp in enumerate(components)`: records appended before a
raising component survive (the records list is outside the `try`). -/
def compLoop (resource category_code : PyVal) (idx : Nat) :
    List PyVal → List ObsRec × Option String
  | [] => ([], Option.none)
  | c :: rest =>
      match compStep resource category_code idx c with
      | .error err => ([], some err)
      | .ok r =>
          let (rs, e?) := compLoop resource category_code (idx + 1) rest
          (r :: rs, e?)

/-- Category extraction of the observation parser (lines 203-207): the
first category entry's first coding code, `None` when the list is falsy. -/
def obsCategoryCode (resource : PyVal) : Except String PyVal := do
  let category_list ← pyGet resource "category" (.list [])
  if truthy category_list then
    let c0 ← pyIndex category_list 0
    let p ← safe_get_coding c0
    pure p.1
  else
    pure PyVal.none

/-- Records emitted for one `Observation` resource: code and category are
extracted first, then the value shape branches in the fixed order
valueQuantity, valueCodeableConcept, component; the component branch
`continue`s past the main append. -/
def obsRecordsOf (resource : PyVal) : List ObsRec × Option String :=
  match (do
    let cd ← safe_get_coding (← pyGet resource "code" .none)
    let category_code ← obsCategoryCode resource
    let hq ← pyContains resource "valueQuantity"
    pure (cd, category_code, hq) : Except String ((PyVal × PyVal) × PyVal × Bool)) with
  | .error err => ([], some err)
  | .ok (cd, category_code, hq) =>
      if hq then
        match (do
          let value_qty ← pyGetItem resource "valueQuantity"
          let v ← pyGet value_qty "value" .none
          let u ← pyGet value_qty "unit" .none
          obsMainRecord resource cd.1 cd.2 v u category_code) with
        | .error err => ([], some err)
        | .ok r => ([r], Option.none)
      else
        match pyContains resource "valueCodeableConcept" with
        | .error err => ([], some err)
        | .ok true =>
            match (do
              let vcc ← pyGetItem resource "valueCodeableConcept"
              let p ← safe_get_coding vcc
              obsMainRecord resource cd.1 cd.2 p.2 .none category_code) with
            | .error err => ([], some err)
            | .ok r => ([r], Option.none)
        | .ok false =>
            match pyContains resource "component" with
            | .error err => ([], some err)
            | .ok true =>
                match (do
                  let comps ← pyGet resource "component" (.list [])
                  pyIter comps : Except String (List PyVal)) with
                | .error err => ([], some err)
                | .ok cs => compLoop resource category_code 0 cs
            | .ok false =>
                match obsMainRecord resource cd.1 cd.2 .none .none category_code with
                | .error err => ([], some err)
                | .ok r => ([r], Option.none)

/-- Process one entry of `parse_observations` (skip non-Observations). -/
def obsEntry (e : PyVal) : List ObsRec × Option String :=
  match (do
    let resource ← pyGet e "resource" (.dict [])
    let rt ← pyGet resource "resourceType" .none
    pure (resource, rt) : Except String (PyVal × PyVal)) with
  | .error err => ([], some err)
  | .ok (resource, rt) =>
      if isStrEq rt "Observation" then obsRecordsOf resource
      else ([], Option.none)

/-- Entry loop of `parse_observations`. -/
def obsEntries : List PyVal → List ObsRec × Option String
  | [] => ([], Option.none)
  | e :: rest =>
      let (rs, e?) := obsEntry e
      match e? with
      | some err => (rs, some err)
      | Option.none =>
          let (rs2, e2) := obsEntries rest
          (rs ++ rs2, e2)

/-- Per-file body of `parse_observations`. -/
def obsFile (bundle : PyVal) : List ObsRec × Option String :=
  match fileEntries bundle with
  | .error err => ([], some err)
  | .ok entries => obsEntries entries

/-- `parse_observations`. -/
def parse_observations (files : List (Except String PyVal)) : List ObsRec × Nat :=
  runParser obsFile files

/-! ## Encounter parser (`parse_encounters`, lines 265-310) -/

/-- Process one entry of `parse_encounters`: the class is read from a
single object field while type is a list, exactly as in the source. -/
def encEntry (e : PyVal) : Except String (Option EncRec) := do
  let resource ← pyGet e "resource" (.dict [])
  let rt ← pyGet resource "resourceType" .none
  if ¬ isStrEq rt "Encounter" then
    return Option.none
  let encounter_class ← pyGet (← pyGet resource "class" (.dict [])) "code" .none
  let type_list ← pyGet resource "type" (.list [])
  let type_display ← if truthy type_list then do
      let t0 ← pyIndex type_list 0
      let p ← safe_get_coding t0
      pure p.2
    else pure PyVal.none
  let period ← pyGet resource "period" (.dict [])
  let rid ← pyGet resource "id" .none
  let pid ← extract_reference_id (← pyGet resource "subject" .none)
  let sd ← pyGet period "start" .none
  let ed ← pyGet period "end" .none
  return some { id := rid, patient_id := pid, encounter_class := encounter_class,
                type_display := type_display, start_date := sd, end_date := ed }

/-- Entry loop of `parse_encounters`. -/
def encEntries : List PyVal → List EncRec × Option String
  | [] => ([], Option.none)
  | e :: rest =>
      match encEntry e with
      | .error err => ([], some err)
      | .ok Option.none => encEntries rest
      | .ok (some r) =>
          let (rs, e?) := encEntries rest
          (r :: rs, e?)

/-- Per-file body of `parse_encounters`. -/
def encFile (bundle : PyVal) : List EncRec × Option String :=
  match fileEntries bundle with
  | .error err => ([], some err)
  | .ok entries => encEntries entries

/-- `parse_encounters`. -/
def parse_encounters (files : List (Except String PyVal)) : List EncRec × Nat :=
  runParser encFile files

/-! ## Medication-request parser (`parse_medication_requests`, lines 313-349) -/

/-- Process one entry of `parse_medication_requests`. -/
def medEntry (e : PyVal) : Except String (Option MedRec) := do
  let resource ← pyGet e "resource" (.dict [])
  let rt ← pyGet resource "resourceType" .none
  if ¬ isStrEq rt "MedicationRequest" then
    return Option.none
  let cd ← safe_get_coding (← pyGet resource "medicationCodeableConcept" .none)
  let rid ← pyGet resource "id" .none
  let pid ← extract_reference_id (← pyGet resource "subject" .none)
  let ao ← pyGet resource "authoredOn" .none
  let st ← pyGet resource "status" .none
  return some { id := rid, patient_id := pid, medication_code := cd.1,
                medication_display := cd.2, authored_on := ao, status := st }

/-- Entry loop of `parse_medication_requests`. -/
def medEntries : List PyVal → List MedRec × Option String
  | [] => ([], Option.none)
  | e :: rest =>
      match medEntry e with
      | .error err => ([], some err)
      | .ok Option.none => medEntries rest
      | .ok (some r) =>
          let (rs, e?) := medEntries rest
          (r :: rs, e?)

/-- Per-file body of `parse_medication_requests`. -/
def medFile (bundle : PyVal) : List MedRec × Option String :=
  match fileEntries bundle with
  | .error err => ([], some err)
  | .ok entries => medEntries entries

/-- `parse_medication_requests`. -/
def parse_medication_requests (files : List (Except String PyVal)) : List MedRec × Nat :=
  runParser medFile files

/-! ## Parse-phase main (`parse_fhir.main`) -/

/-- The five DataFrames returned by `parse_fhir.main`. -/
structure DataFrames where
  patients : List PatientRec
  conditions : List CondRec
  observations : List ObsRec
  encounters : List EncRec
  medication_requests : List MedRec
deriving Repr

/-- `parse_fhir.main`: run every parser over the same file set. -/
def parseMain (files : List (Except String PyVal)) : DataFrames :=
  { patients := (parse_patients files).1
    conditions := (parse_conditions files).1
    observations := (parse_observations files).1
    encounters := (parse_encounters files).1
    medication_requests := (parse_medication_requests files).1 }

/-! ## Relational store (`load_database.py`)

The SQLite database is modelled at row granularity.  pandas'
`DataFrame.to_sql` on a plain `sqlite3` connection wraps each call in its
own transaction that is committed on success and rolled back on failure
(`pandas.io.sql.SQLiteDatabase.run_transaction`), so each successful
`to_sql` call leaves its rows durably committed and a failing call leaves
the database exactly as before; the explicit `conn.commit()` /
`conn.rollback()` in `load_data` therefore change no row state.  A
connection is the committed row state plus the foreign-key pragma flag. -/

/-- Rows of the five tables. -/
structure DBState where
  patients : List PatientRec
  conditions : List CondRec
  observations : List ObsRec
  encounters : List EncRec
  medication_requests : List MedRec
deriving Repr

/-- The freshly created database: all tables empty. -/
def emptyDB : DBState :=
  { patients := [], conditions := [], observations := [], encounters := [],
    medication_requests := [] }

/-- An open SQLite connection: committed rows and the `foreign_keys` pragma. -/
structure Conn where
  db : DBState
  fkOn : Bool
deriving Repr

/-- Membership of a Python value in a list of Python values. -/
def containsVal (xs : List PyVal) (v : PyVal) : Bool :=
  xs.any (fun x => beqPyVal x v)

/-- TEXT PRIMARY KEY check for a batch of ids inserted in order against
the ids already present: SQLite admits NULLs in a non-INTEGER primary key
column, so only non-null duplicates violate the constraint. -/
def pkChainOk (seen : List PyVal) : List PyVal → Bool
  | [] => true
  | i :: rest =>
      (isNone i || ¬ containsVal seen i) && pkChainOk (i :: seen) rest

/-- Constraint on one child row: `patient_id TEXT NOT NULL` always, and
`FOREIGN KEY (patient_id) REFERENCES patients(id)` when the pragma is on. -/
def childRowOk (parentIds : List PyVal) (fkOn : Bool) (pid : PyVal) : Bool :=
  !(isNone pid) && (!fkOn || containsVal parentIds pid)

/-- Ids of the committed patient rows. -/
def parentIds (db : DBState) : List PyVal := db.patients.map (·.id)

/-- `patients_df.to_sql('patients', conn, if_exists='append')`. -/
def insertPatients (c : Conn) (rows : List PatientRec) : Except String Conn :=
  if pkChainOk (parentIds c.db) (rows.map (·.id)) then
    .ok { c with db := { c.db with patients := c.db.patients ++ rows } }
  else .error "IntegrityError: patients"

/-- `conditions_df.to_sql(...)`: NOT NULL, foreign key and primary key
constraints checked against the committed state. -/
def insertConditions (c : Conn) (rows : List CondRec) : Except String Conn :=
  if (rows.all fun r => childRowOk (parentIds c.db) c.fkOn r.patient_id) &&
     pkChainOk (c.db.conditions.map (·.id)) (rows.map (·.id)) then
    .ok { c with db := { c.db with conditions := c.db.conditions ++ rows } }
  else .error "IntegrityError: conditions"

/-- `observations_df.to_sql(...)`. -/
def insertObservations (c : Conn) (rows : List ObsRec) : Except String Conn :=
  if (rows.all fun r => childRowOk (parentIds c.db) c.fkOn r.patient_id) &&
     pkChainOk (c.db.observations.map (·.id)) (rows.map (·.id)) then
    .ok { c with db := { c.db with observations := c.db.observations ++ rows } }
  else .error "IntegrityError: observations"

/-- `encounters_df.to_sql(...)`. -/
def insertEncounters (c : Conn) (rows : List EncRec) : Except String Conn :=
  if (rows.all fun r => childRowOk (parentIds c.db) c.fkOn r.patient_id) &&
     pkChainOk (c.db.encounters.map (·.id)) (rows.map (·.id)) then
    .ok { c with db := { c.db with encounters := c.db.encounters ++ rows } }
  else .error "IntegrityError: encounters"

/-- `medication_requests_df.to_sql(...)`. -/
def insertMeds (c : Conn) (rows : List MedRec) : Except String Conn :=
  if (rows.all fun r => childRowOk (parentIds c.db) c.fkOn r.patient_id) &&
     pkChainOk (c.db.medication_requests.map (·.id)) (rows.map (·.id)) then
    .ok { c with db := { c.db with medication_requests := c.db.medication_requests ++ rows } }
  else .error "IntegrityError: medication_requests"

/-- `create_tables`: executes `PRAGMA foreign_keys = ON` and the five
`CREATE TABLE IF NOT EXISTS` statements (whose constraints are encoded in
the insert functions above), then commits. -/
def create_tables (c : Conn) : Conn := { c with fkOn := true }

/-- `create_indexes`: builds the eight indexes; row state is unchanged. -/
def create_indexes (c : Conn) : Conn := c

/-- Table names, for the load-phase event trace. -/
inductive Table where
  | patients | conditions | observations | encounters | medication_requests
deriving DecidableEq, Repr

/-- Observable events of the load phase: per-`to_sql` insert begin,
internal commit or internal rollback, plus the explicit `conn.commit()` /
`conn.rollback()` of `load_data`. -/
inductive LoadEv where
  | sqlInsert (t : Table)
  | sqlCommit (t : Table)
  | sqlRollback (t : Table)
  | connCommit
  | connRollback
deriving DecidableEq, Repr

/-- `load_data`: patients first, then the four child tables, then
`conn.commit()`; any failure triggers the `except` branch's
`conn.rollback()` and re-raise.  Returns the outcome, the connection
after the last committed `to_sql`, and the event trace. -/
def load_data (c : Conn) (dfs : DataFrames) :
    Except String Unit × Conn × List LoadEv :=
  match insertPatients c dfs.patients with
  | .error e => (.error e, c,
      [.sqlInsert .patients, .sqlRollback .patients, .connRollback])
  | .ok c1 =>
    match insertConditions c1 dfs.conditions with
    | .error e => (.error e, c1,
        [.sqlInsert .patients, .sqlCommit .patients,
         .sqlInsert .conditions, .sqlRollback .conditions, .connRollback])
    | .ok c2 =>
      match insertObservations c2 dfs.observations with
      | .error e => (.error e, c2,
          [.sqlInsert .patients, .sqlCommit .patients,
           .sqlInsert .conditions, .sqlCommit .conditions,
           .sqlInsert .observations, .sqlRollback .observations, .connRollback])
      | .ok c3 =>
        match insertEncounters c3 dfs.encounters with
        | .error e => (.error e, c3,
            [.sqlInsert .patients, .sqlCommit .patients,
             .sqlInsert .conditions, .sqlCommit .conditions,
             .sqlInsert .observations, .sqlCommit .observations,
             .sqlInsert .encounters, .sqlRollback .encounters, .connRollback])
        | .ok c4 =>
          match insertMeds c4 dfs.medication_requests with
          | .error e => (.error e, c4,
              [.sqlInsert .patients, .sqlCommit .patients,
               .sqlInsert .conditions, .sqlCommit .conditions,
               .sqlInsert .observations, .sqlCommit .observations,
               .sqlInsert .encounters, .sqlCommit .encounters,
               .sqlInsert .medication_requests, .sqlRollback .medication_requests,
               .connRollback])
          | .ok c5 => (.ok (), c5,
              [.sqlInsert .patients, .sqlCommit .patients,
               .sqlInsert .conditions, .sqlCommit .conditions,
               .sqlInsert .observations, .sqlCommit .observations,
               .sqlInsert .encounters, .sqlCommit .encounters,
               .sqlInsert .medication_requests, .sqlCommit .medication_requests,
               .connCommit])

/-- The values of `xs` with duplicates (under Python equality) removed. -/
def distinctVals : List PyVal → List PyVal
  | [] => []
  | x :: xs =>
      let r := distinctVals xs
      if containsVal r x then r else x :: r

/-- `verify_load`: compare each table's row count against its DataFrame,
raising on any mismatch, then run the five-table LEFT JOIN grouped by
patient id with LIMIT 5 — it returns one row per patient id present in
`patients` (capped at 5), so it is empty exactly when `patients` is — and
raise when no row comes back. -/
def verify_load (c : Conn) (dfs : DataFrames) : Except String Unit :=
  let countsOk :=
    c.db.patients.length == dfs.patients.length &&
    c.db.conditions.length == dfs.conditions.length &&
    c.db.observations.length == dfs.observations.length &&
    c.db.encounters.length == dfs.encounters.length &&
    c.db.medication_requests.length == dfs.medication_requests.length
  if ¬ countsOk then .error "Row count mismatch detected!"
  else
    let joinRowCount := min 5 (distinctVals (parentIds c.db)).length
    if joinRowCount == 0 then .error "Foreign key relationship test failed!"
    else .ok ()

/-- Pipeline phases of `load_database.main` that can surface an error. -/
inductive Phase where
  | loading | verifying
deriving DecidableEq, Repr

/-- `os.remove(db_path)` guarded by `os.path.exists`: whatever database
file was there before, none remains. -/
def removeIfExists : Option DBState → Option DBState
  | some _ => Option.none
  | Option.none => Option.none

/-- `sqlite3.connect(db_path)`: opens the existing database file or
creates a fresh empty one; the foreign-key pragma starts off. -/
def connectTo : Option DBState → Conn
  | some db => { db := db, fkOn := false }
  | Option.none => { db := emptyDB, fkOn := false }

/-- `load_database.main`: remove any existing database file, parse, connect,
create schema, load, index, verify.  Returns the surfaced outcome and the
database contents left on disk (the committed state when the connection
closes, on success or failure alike). -/
def dbMain (files : List (Except String PyVal)) (prior : Option DBState) :
    Except (Phase × String) Unit × DBState :=
  let dfs := parseMain files
  let c0 := create_tables (connectTo (removeIfExists prior))
  match load_data c0 dfs with
  | (.error e, c1, _) => (.error (.loading, e), c1.db)
  | (.ok _, c1, _) =>
      let c2 := create_indexes c1
      match verify_load c2 dfs with
      | .error e => (.error (.verifying, e), c2.db)
      | .ok _ => (.ok (), c2.db)

/-! ## Theorems -/

/-- Auxiliary: a dict with a successful lookup is not the empty dict. -/
theorem dictLookup_ne_nil {kvs : List (String × PyVal)} {k : String} {v : PyVal}
    (h : dictLookup kvs k = some v) : kvs.isEmpty = false := by
  cases kvs with
  | nil => simp [dictLookup] at h
  | cons a l => rfl

/-- Auxiliary: the coded-concept resolver falls back to (None, None) when
the coding key is absent. -/
theorem safe_get_coding_absent (kvs : List (String × PyVal)) (i : Int)
    (h : dictLookup kvs "coding" = Option.none) :
    safe_get_coding (.dict kvs) i = .ok (.none, .none) := by
  by_cases hk : kvs.isEmpty
  · simp [safe_get_coding, truthy, hk]
  · replace hk : kvs.isEmpty = false := by simpa using hk
    simp [safe_get_coding, truthy, hk, pyGet, h]

/-- Auxiliary: the coded-concept resolver falls back to (None, None) on an
empty coding list. -/
theorem safe_get_coding_emptylist (kvs : List (String × PyVal)) (i : Int)
    (h : dictLookup kvs "coding" = some (.list [])) :
    safe_get_coding (.dict kvs) i = .ok (.none, .none) := by
  simp [safe_get_coding, truthy, dictLookup_ne_nil h, pyGet, h]

/-- Auxiliary: the coded-concept resolver falls back to (None, None) when
the coding list is too short for the requested index. -/
theorem safe_get_coding_short (kvs : List (String × PyVal)) (i : Int)
    (xs : List PyVal) (h : dictLookup kvs "coding" = some (.list xs))
    (hle : (xs.length : Int) ≤ i) :
    safe_get_coding (.dict kvs) i = .ok (.none, .none) := by
  have hk := dictLookup_ne_nil h
  by_cases hx : xs.isEmpty
  · simp [safe_get_coding, truthy, hk, pyGet, h, hx]
  · replace hx : xs.isEmpty = false := by simpa using hx
    simp [safe_get_coding, truthy, hk, pyGet, h, hx, pyLen]
    omega

/-- C5: every value extractor (reference resolver, coded-concept resolver,
race and ethnicity categorical-extension resolvers) is total on truncated
or absent nested input: on an empty mapping, a mapping lacking the
expected key, an empty nested list, or a coding list too short for the
requested index, each returns its null/empty result (`.ok` of a null or
empty value) and never raises (never returns `.error`). -/
theorem extractor_null_safety :
    (extract_reference_id (.dict []) = .ok .none) ∧
    (∀ kvs, dictLookup kvs "reference" = Option.none →
      extract_reference_id (.dict kvs) = .ok .none ∨
      extract_reference_id (.dict kvs) = .ok (.str "")) ∧
    (∀ i : Int, safe_get_coding (.dict []) i = .ok (.none, .none)) ∧
    (∀ kvs (i : Int), dictLookup kvs "coding" = Option.none →
      safe_get_coding (.dict kvs) i = .ok (.none, .none)) ∧
    (∀ kvs (i : Int), dictLookup kvs "coding" = some (.list []) →
      safe_get_coding (.dict kvs) i = .ok (.none, .none)) ∧
    (∀ kvs (i : Int) (xs : List PyVal), dictLookup kvs "coding" = some (.list xs) →
      (xs.length : Int) ≤ i → safe_get_coding (.dict kvs) i = .ok (.none, .none)) ∧
    (extract_race (.dict []) = .ok .none) ∧
    (∀ kvs, dictLookup kvs "extension" = Option.none →
      extract_race (.dict kvs) = .ok .none) ∧
    (∀ kvs, dictLookup kvs "extension" = some (.list []) →
      extract_race (.dict kvs) = .ok .none) ∧
    (extract_ethnicity (.dict []) = .ok .none) ∧
    (∀ kvs, dictLookup kvs "extension" = Option.none →
      extract_ethnicity (.dict kvs) = .ok .none) ∧
    (∀ kvs, dictLookup kvs "extension" = some (.list []) →
      extract_ethnicity (.dict kvs) = .ok .none) := by
  refine ⟨rfl, ?_, ?_, ?_, ?_, ?_, rfl, ?_, ?_, rfl, ?_, ?_⟩
  · intro kvs h
    by_cases hk : kvs.isEmpty
    · left
      have : kvs = [] := by simpa [List.isEmpty_iff] using hk
      subst this; rfl
    · right
      replace hk : kvs.isEmpty = false := by simpa using hk
      simp [extract_reference_id, truthy, hk, pyGet, h, pyContains, pySplit]
      rfl
  · intro i; rfl
  · exact safe_get_coding_absent
  · exact safe_get_coding_emptylist
  · exact safe_get_coding_short
  · intro kvs h
    simp [extract_race, pyGet, h, pyIter, usCoreLoop]
  · intro kvs h
    simp [extract_race, pyGet, h, pyIter, usCoreLoop]
  · intro kvs h
    simp [extract_ethnicity, pyGet, h, pyIter, usCoreLoop]
  · intro kvs h
    simp [extract_ethnicity, pyGet, h, pyIter, usCoreLoop]

/-- Witness for C5: each quantified conjunct of `extractor_null_safety`
instantiated at a concrete truncated input. -/
theorem extractor_null_safety_witness :
    (extract_reference_id (.dict [("x", .int 1)]) = .ok .none ∨
     extract_reference_id (.dict [("x", .int 1)]) = .ok (.str "")) ∧
    safe_get_coding (.dict [("a", .int 1)]) 0 = .ok (.none, .none) ∧
    safe_get_coding (.dict [("coding", .list [])]) 0 = .ok (.none, .none) ∧
    safe_get_coding (.dict [("coding", .list [.dict []])]) 3 = .ok (.none, .none) ∧
    extract_race (.dict [("gender", .str "female")]) = .ok .none ∧
    extract_race (.dict [("extension", .list [])]) = .ok .none ∧
    extract_ethnicity (.dict [("gender", .str "female")]) = .ok .none ∧
    extract_ethnicity (.dict [("extension", .list [])]) = .ok .none :=
  ⟨extractor_null_safety.2.1 [("x", .int 1)] rfl,
   extractor_null_safety.2.2.2.1 [("a", .int 1)] 0 rfl,
   extractor_null_safety.2.2.2.2.1 [("coding", .list [])] 0 rfl,
   extractor_null_safety.2.2.2.2.2.1 [("coding", .list [.dict []])] 3 [.dict []] rfl
     (by norm_num),
   extractor_null_safety.2.2.2.2.2.2.2.1 [("gender", .str "female")] rfl,
   extractor_null_safety.2.2.2.2.2.2.2.2.1 [("extension", .list [])] rfl,
   extractor_null_safety.2.2.2.2.2.2.2.2.2.2.1 [("gender", .str "female")] rfl,
   extractor_null_safety.2.2.2.2.2.2.2.2.2.2.2 [("extension", .list [])] rfl⟩

/-- C6: the coded-concept resolver returns the (code, display) pair of the
requested coding entry when that entry exists, and returns (null, null)
when the coding list is absent or has no entry at the requested index
(absent key, empty list, or too-short list). -/
theorem safe_get_coding_spec :
    (∀ kvs (i : Nat) (xs : List PyVal) (ekvs : List (String × PyVal)),
      dictLookup kvs "coding" = some (.list xs) →
      xs.get? i = some (.dict ekvs) →
      safe_get_coding (.dict kvs) i =
        .ok ((dictLookup ekvs "code").getD .none,
             (dictLookup ekvs "display").getD .none)) ∧
    (∀ kvs (i : Nat), dictLookup kvs "coding" = Option.none →
      safe_get_coding (.dict kvs) i = .ok (.none, .none)) ∧
    (∀ kvs (i : Nat) (xs : List PyVal), dictLookup kvs "coding" = some (.list xs) →
      xs.length ≤ i → safe_get_coding (.dict kvs) i = .ok (.none, .none)) := by
  refine ⟨?_, ?_, ?_⟩
  · intro kvs i xs ekvs h he
    have hk := dictLookup_ne_nil h
    have hlen : i < xs.length := (List.get?_eq_some.mp he).1
    have hx : xs.isEmpty = false := by
      cases xs with
      | nil => simp at hlen
      | cons a l => rfl
    have hni : ¬ ((xs.length : Int) ≤ (i : Int)) := by exact_mod_cast Nat.not_le.mpr hlen
    simp [safe_get_coding, truthy, hk, pyGet, h, hx, pyLen, pyIndex, hni]
    have h0 : ¬ ((i : Int) < 0) := by omega
    have h2 : (0 : Int) ≤ (i : Int) := by omega
    have h3 : ((i : Int)) < (xs.length : Int) := by exact_mod_cast hlen
    have hgi : xs[i] = .dict ekvs := by
      obtain ⟨hl, hget⟩ := List.get?_eq_some.mp he
      simpa [List.get_eq_getElem] using hget
    simp [h0, h2, h3, Nat.not_le.mpr hlen, hgi]
  · intro kvs i h
    exact safe_get_coding_absent kvs i h
  · intro kvs i xs h hle
    exact safe_get_coding_short kvs i xs h (by exact_mod_cast hle)

/-- Witness for C6: a two-entry coding list resolved at index 1, plus the
(null, null) cases at concrete inputs. -/
theorem safe_get_coding_spec_witness :
    safe_get_coding (.dict [("coding", .list
        [.dict [("code", .str "a")],
         .dict [("code", .str "b"), ("display", .str "B")]])]) 1 =
      .ok (.str "b", .str "B") ∧
    safe_get_coding (.dict [("text", .str "t")]) 0 = .ok (.none, .none) ∧
    safe_get_coding (.dict [("coding", .list [.dict []])]) 2 = .ok (.none, .none) :=
  ⟨safe_get_coding_spec.1 _ 1 _ [("code", .str "b"), ("display", .str "B")] rfl rfl,
   safe_get_coding_spec.2.1 [("text", .str "t")] 0 rfl,
   safe_get_coding_spec.2.2 [("coding", .list [.dict []])] 2 [.dict []] rfl
     (by norm_num)⟩

/-- Auxiliary: the patient entry loop emits at most one record (it breaks
at the first Patient resource). -/
theorem patientEntries_length_le_one (entries : List PyVal) :
    (patientEntries entries).1.length ≤ 1 := by
  induction entries with
  | nil => simp [patientEntries]
  | cons e rest ih =>
      simp only [patientEntries]
      split
      · simp
      · split
        · split <;> simp
        · exact ih

/-- The source document of spec §8 scenario 7: one Patient resource, given
name Jane, family name Doe, gender female, birth date 1980-01-01, no
race/ethnicity extensions, no address. -/
def janeDoc : PyVal := .dict [
  ("entry", .list [
    .dict [("resource", .dict [
      ("resourceType", .str "Patient"),
      ("id", .str "p1"),
      ("name", .list [.dict [("given", .list [.str "Jane"]), ("family", .str "Doe")]]),
      ("gender", .str "female"),
      ("birthDate", .str "1980-01-01")])]])]

/-- The single row expected from `janeDoc`. -/
def janeRec : PatientRec :=
  { id := .str "p1", given_name := .str "Jane", family_name := .str "Doe",
    gender := .str "female", birth_date := .str "1980-01-01",
    race := .none, ethnicity := .none, city := .none, state := .none }

/-- Auxiliary: Python `lst[0]` on a non-empty list takes the head. -/
@[simp] theorem pyIndex_cons_zero (x : PyVal) (xs : List PyVal) :
    pyIndex (.list (x :: xs)) 0 = .ok x := by
  simp [pyIndex]

/-- Auxiliary: whatever further name or address entries a Patient
resource has, the emitted record is built from the entries at index 0. -/
theorem patientRecord_first_entry (rkvs nkvs akvs : List (String × PyVal))
    (ns as gs : List PyVal) (g0 : PyVal) (r : PatientRec)
    (hname : dictLookup rkvs "name" = some (.list (.dict nkvs :: ns)))
    (hgiven : dictLookup nkvs "given" = some (.list (g0 :: gs)))
    (haddr : dictLookup rkvs "address" = some (.list (.dict akvs :: as)))
    (hok : patientRecord (.dict rkvs) = .ok r) :
    r.given_name = g0 ∧
    r.family_name = (dictLookup nkvs "family").getD (.str "") ∧
    r.city = (dictLookup akvs "city").getD .none ∧
    r.state = (dictLookup akvs "state").getD .none := by
  unfold patientRecord at hok
  simp only [pyGet, ok_bind, hname, haddr, hgiven, Option.getD_some, truthy,
    List.isEmpty_cons, Bool.not_false, if_true, pyIndex_cons_zero] at hok
  obtain ⟨race, hrace, hok⟩ := bind_ok_iff.mp hok
  obtain ⟨eth, heth, hok⟩ := bind_ok_iff.mp hok
  simp only [pure_eq_ok, Except.ok.injEq] at hok
  subst hok
  exact ⟨rfl, rfl, rfl, rfl⟩

/-- C9: the patient parser emits at most one Patient record per document
(it stops at the first subject-type resource); when several name or
address entries are present the record takes the first name entry (its
first given name and its family name) and the first address entry (its
city and state) — index 0 wins; and the concrete Jane Doe document —
given name "Jane", family name "Doe", gender "female", birth date
"1980-01-01", no race/ethnicity extensions — yields exactly one record
with race and ethnicity null and the other fields as given. -/
theorem patient_parser_at_most_one :
    (∀ bundle, (patientsFile bundle).1.length ≤ 1) ∧
    parse_patients [.ok janeDoc] = ([janeRec], 0) ∧
    (∀ (rkvs nkvs akvs : List (String × PyVal)) (ns as gs : List PyVal)
        (g0 : PyVal) (r : PatientRec),
      dictLookup rkvs "name" = some (.list (.dict nkvs :: ns)) →
      dictLookup nkvs "given" = some (.list (g0 :: gs)) →
      dictLookup rkvs "address" = some (.list (.dict akvs :: as)) →
      patientRecord (.dict rkvs) = .ok r →
      r.given_name = g0 ∧
      r.family_name = (dictLookup nkvs "family").getD (.str "") ∧
      r.city = (dictLookup akvs "city").getD .none ∧
      r.state = (dictLookup akvs "state").getD .none) := by
  refine ⟨?_, rfl, patientRecord_first_entry⟩
  intro bundle
  unfold patientsFile
  split
  · simp
  · exact patientEntries_length_le_one _

/-- A Patient resource with two name entries and two address entries. -/
def twoNameResKvs : List (String × PyVal) := [
  ("resourceType", .str "Patient"),
  ("id", .str "p2"),
  ("name", .list [
    .dict [("given", .list [.str "Jane", .str "Janet"]), ("family", .str "Doe")],
    .dict [("given", .list [.str "Other"]), ("family", .str "Smith")]]),
  ("address", .list [
    .dict [("city", .str "Springfield"), ("state", .str "IL")],
    .dict [("city", .str "Shelbyville"), ("state", .str "WA")]]),
  ("gender", .str "female")]

/-- The record the parser builds from `twoNameResKvs`. -/
def twoNameRec : PatientRec :=
  { id := .str "p2", given_name := .str "Jane", family_name := .str "Doe",
    gender := .str "female", birth_date := .none,
    race := .none, ethnicity := .none,
    city := .str "Springfield", state := .str "IL" }

/-- Witness for C9: on the two-name, two-address resource the first
entries win — given name "Jane", family "Doe", city "Springfield",
state "IL", not the second entries' values. -/
theorem patient_parser_at_most_one_witness :
    twoNameRec.given_name = .str "Jane" ∧
    twoNameRec.family_name = .str "Doe" ∧
    twoNameRec.city = .str "Springfield" ∧
    twoNameRec.state = .str "IL" :=
  patient_parser_at_most_one.2.2 twoNameResKvs
    [("given", .list [.str "Jane", .str "Janet"]), ("family", .str "Doe")]
    [("city", .str "Springfield"), ("state", .str "IL")]
    [.dict [("given", .list [.str "Other"]), ("family", .str "Smith")]]
    [.dict [("city", .str "Shelbyville"), ("state", .str "WA")]]
    [.str "Janet"] (.str "Jane") twoNameRec rfl rfl rfl rfl

/-- The `.ok` side of a file: the loaded bundle, when loadable. -/
def okB : Except String PyVal → Option PyVal
  | .ok b => some b
  | .error _ => Option.none

/-- The bundles of the loadable files, in order. -/
def okBundles (files : List (Except String PyVal)) : List PyVal :=
  files.filterMap okB

/-- Auxiliary: a parser's records are exactly the per-file records of the
loadable files, concatenated in order. -/
theorem runParser_records {α : Type} (pf : PyVal → List α × Option String)
    (files : List (Except String PyVal)) :
    (runParser pf files).1 = ((okBundles files).map (fun b => (pf b).1)).flatten := by
  induction files with
  | nil => rfl
  | cons f rest ih =>
      cases f with
      | error e => simpa [runParser, okBundles, okB] using ih
      | ok b => simp [runParser, okBundles, okB, ih]

/-- Auxiliary: when every loadable file parses without an in-file
exception, the number of logged errors is the number of unloadable files. -/
theorem runParser_errors {α : Type} (pf : PyVal → List α × Option String)
    (files : List (Except String PyVal))
    (h : files.all (fun f => match f with
          | .ok b => ((pf b).2).isNone
          | .error _ => true) = true) :
    (runParser pf files).2 = files.length - (okBundles files).length := by
  induction files with
  | nil => rfl
  | cons f rest ih =>
      rw [List.all_cons] at h
      obtain ⟨h1, h2⟩ := Bool.and_eq_true_iff.mp h
      have hle : (List.filterMap okB rest).length ≤ rest.length :=
        List.length_filterMap_le _ _
      cases f with
      | error e =>
          have hrec := ih h2
          simp only [okBundles] at hrec
          simp only [runParser, okBundles, List.filterMap_cons, okB]
          simp [hrec]
          omega
      | ok b =>
          have hrec := ih h2
          simp only [okBundles] at hrec
          have hz : (if (pf b).2.isSome then 1 else 0) = 0 := by
            simp only at h1
            simp [Option.isNone_iff_eq_none.mp h1]
          simp only [runParser, okBundles, List.filterMap_cons, okB]
          simp [hrec, hz]

/-- C7: for a batch of files of which K fail to load (unreadable or
JSON-malformed) and the rest parse cleanly, every resource parser —
patients, conditions, observations, encounters, medication requests —
logs exactly K errors and still produces the records of the N−K
remaining documents, in order, without aborting. -/
theorem partial_failure_tolerance (files : List (Except String PyVal))
    (hp : files.all (fun f => match f with
          | .ok b => ((patientsFile b).2).isNone
          | .error _ => true) = true)
    (hc : files.all (fun f => match f with
          | .ok b => ((condFile b).2).isNone
          | .error _ => true) = true)
    (ho : files.all (fun f => match f with
          | .ok b => ((obsFile b).2).isNone
          | .error _ => true) = true)
    (he : files.all (fun f => match f with
          | .ok b => ((encFile b).2).isNone
          | .error _ => true) = true)
    (hm : files.all (fun f => match f with
          | .ok b => ((medFile b).2).isNone
          | .error _ => true) = true) :
    ((parse_patients files).1 =
        ((okBundles files).map (fun b => (patientsFile b).1)).flatten ∧
     (parse_patients files).2 = files.length - (okBundles files).length) ∧
    ((parse_conditions files).1 =
        ((okBundles files).map (fun b => (condFile b).1)).flatten ∧
     (parse_conditions files).2 = files.length - (okBundles files).length) ∧
    ((parse_observations files).1 =
        ((okBundles files).map (fun b => (obsFile b).1)).flatten ∧
     (parse_observations files).2 = files.length - (okBundles files).length) ∧
    ((parse_encounters files).1 =
        ((okBundles files).map (fun b => (encFile b).1)).flatten ∧
     (parse_encounters files).2 = files.length - (okBundles files).length) ∧
    ((parse_medication_requests files).1 =
        ((okBundles files).map (fun b => (medFile b).1)).flatten ∧
     (parse_medication_requests files).2 = files.length - (okBundles files).length) :=
  ⟨⟨runParser_records patientsFile files, runParser_errors patientsFile files hp⟩,
   ⟨runParser_records condFile files, runParser_errors condFile files hc⟩,
   ⟨runParser_records obsFile files, runParser_errors obsFile files ho⟩,
   ⟨runParser_records encFile files, runParser_errors encFile files he⟩,
   ⟨runParser_records medFile files, runParser_errors medFile files hm⟩⟩

/-- Witness for C7: a batch of one unreadable file and one good document
yields the good document's records and one logged error in each of the
five parsers. -/
theorem partial_failure_tolerance_witness :
    ((parse_patients [.error "unreadable", .ok janeDoc]).1 = [janeRec] ∧
     (parse_patients [.error "unreadable", .ok janeDoc]).2 = 1) ∧
    ((parse_conditions [.error "unreadable", .ok janeDoc]).1 = [] ∧
     (parse_conditions [.error "unreadable", .ok janeDoc]).2 = 1) ∧
    ((parse_observations [.error "unreadable", .ok janeDoc]).1 = [] ∧
     (parse_observations [.error "unreadable", .ok janeDoc]).2 = 1) ∧
    ((parse_encounters [.error "unreadable", .ok janeDoc]).1 = [] ∧
     (parse_encounters [.error "unreadable", .ok janeDoc]).2 = 1) ∧
    ((parse_medication_requests [.error "unreadable", .ok janeDoc]).1 = [] ∧
     (parse_medication_requests [.error "unreadable", .ok janeDoc]).2 = 1) := by
  have h := partial_failure_tolerance [.error "unreadable", .ok janeDoc]
    rfl rfl rfl rfl rfl
  exact h

/-- Is this event the begin-insert of one of the four child tables? -/
def isChildInsert : LoadEv → Bool
  | .sqlInsert Table.patients => false
  | .sqlInsert _ => true
  | _ => false

/-- C4: in every execution of the load phase, either no child-table
insertion happens at all, or the trace splits at a commit of the patients
table such that everything before that commit contains the parent
insertion and no child-table insertion: no child insertion occurs prior
to the commit of the parent table. -/
theorem parent_commit_before_children (c : Conn) (dfs : DataFrames) :
    (∀ ev ∈ (load_data c dfs).2.2, isChildInsert ev = false) ∨
    (∃ pre suf, (load_data c dfs).2.2 =
        pre ++ LoadEv.sqlCommit Table.patients :: suf ∧
      LoadEv.sqlInsert Table.patients ∈ pre ∧
      ∀ ev ∈ pre, isChildInsert ev = false) := by
  cases h1 : insertPatients c dfs.patients with
  | error e =>
      simp only [load_data, h1]
      left
      decide
  | ok c1 =>
      cases h2 : insertConditions c1 dfs.conditions with
      | error e =>
          simp only [load_data, h1, h2]
          exact Or.inr ⟨[LoadEv.sqlInsert Table.patients], _, rfl, by decide, by decide⟩
      | ok c2 =>
          cases h3 : insertObservations c2 dfs.observations with
          | error e =>
              simp only [load_data, h1, h2, h3]
              exact Or.inr ⟨[LoadEv.sqlInsert Table.patients], _, rfl, by decide, by decide⟩
          | ok c3 =>
              cases h4 : insertEncounters c3 dfs.encounters with
              | error e =>
                  simp only [load_data, h1, h2, h3, h4]
                  exact Or.inr ⟨[LoadEv.sqlInsert Table.patients], _, rfl, by decide, by decide⟩
              | ok c4 =>
                  cases h5 : insertMeds c4 dfs.medication_requests with
                  | error e =>
                      simp only [load_data, h1, h2, h3, h4, h5]
                      exact Or.inr ⟨[LoadEv.sqlInsert Table.patients], _, rfl, by decide, by decide⟩
                  | ok c5 =>
                      simp only [load_data, h1, h2, h3, h4, h5]
                      exact Or.inr ⟨[LoadEv.sqlInsert Table.patients], _, rfl, by decide, by decide⟩

@[simp] theorem except_map_ok {α β : Type} (g : α → β) (a : α) :
    Except.map g (Except.ok a : Except String α) = .ok (g a) := rfl

@[simp] theorem except_map_error {α β : Type} (g : α → β) (e : String) :
    Except.map g (Except.error e : Except String α) = .error e := rfl

/-- Auxiliary: a successful component record carries the parent resource's
raw id, extracted patient reference, effective date, and the passed-down
category code. -/
theorem compCore_ok_fields (rkvs : List (String × PyVal)) (cat : PyVal)
    (c : PyVal) (r : ObsRec)
    (h : compCore (.dict rkvs) cat c = .ok r) :
    r.id = (dictLookup rkvs "id").getD .none ∧
    extract_reference_id ((dictLookup rkvs "subject").getD .none) = .ok r.patient_id ∧
    r.effective_date = (dictLookup rkvs "effectiveDateTime").getD .none ∧
    r.category = cat := by
  unfold compCore at h
  obtain ⟨v, hv, h⟩ := bind_ok_iff.mp h
  obtain ⟨cd, hcd, h⟩ := bind_ok_iff.mp h
  obtain ⟨hvq, hhvq, h⟩ := bind_ok_iff.mp h
  cases hvq with
  | true =>
      simp only [if_pos, pure_eq_ok, ok_bind] at h
      obtain ⟨q, hq, h⟩ := bind_ok_iff.mp h
      obtain ⟨v2, hv2, h⟩ := bind_ok_iff.mp h
      obtain ⟨u, hu, h⟩ := bind_ok_iff.mp h
      obtain ⟨rid, hrid, h⟩ := bind_ok_iff.mp h
      obtain ⟨sub, hsub, h⟩ := bind_ok_iff.mp h
      obtain ⟨pid, hpid, h⟩ := bind_ok_iff.mp h
      obtain ⟨eff, heff, h⟩ := bind_ok_iff.mp h
      simp only [pure_eq_ok, Except.ok.injEq] at h
      subst h
      simp only [pyGet, Except.ok.injEq] at hrid heff hsub
      subst hrid
      subst heff
      subst hsub
      exact ⟨rfl, hpid, rfl, rfl⟩
  | false =>
      simp only [Bool.false_eq_true, if_neg, pure_eq_ok, ok_bind] at h
      obtain ⟨rid, hrid, h⟩ := bind_ok_iff.mp h
      obtain ⟨sub, hsub, h⟩ := bind_ok_iff.mp h
      obtain ⟨pid, hpid, h⟩ := bind_ok_iff.mp h
      obtain ⟨eff, heff, h⟩ := bind_ok_iff.mp h
      simp only [pure_eq_ok, Except.ok.injEq] at h
      subst h
      simp only [pyGet, Except.ok.injEq] at hrid heff hsub
      subst hrid
      subst heff
      subst hsub
      exact ⟨rfl, hpid, rfl, rfl⟩

/-- Auxiliary: when every component processes successfully, the fan-out
loop starting at position `n` emits no error, one record per component,
the `k`-th being that component's record with id suffix `n + k`. -/
theorem compLoop_spec (res cat : PyVal) (comps : List PyVal)
    (h : ∀ c ∈ comps, ∃ r, compCore res cat c = .ok r) :
    ∀ n, (compLoop res cat n comps).2 = Option.none ∧
      (compLoop res cat n comps).1.length = comps.length ∧
      (∀ k c, comps.get? k = some c →
        ∃ r, compCore res cat c = .ok r ∧
          (compLoop res cat n comps).1.get? k =
            some { r with id := .str (pyStr r.id ++ "-" ++ toString (n + k)) }) := by
  induction comps with
  | nil =>
      intro n
      refine ⟨rfl, rfl, ?_⟩
      intro k c hk
      simp at hk
  | cons c0 rest ih =>
      intro n
      obtain ⟨r0, hr0⟩ := h c0 (List.mem_cons_self _ _)
      have h' : ∀ c ∈ rest, ∃ r, compCore res cat c = .ok r :=
        fun c hc => h c (List.mem_cons_of_mem _ hc)
      obtain ⟨ih1, ih2, ih3⟩ := ih h' (n + 1)
      have hstep : compStep res cat n c0 =
          .ok { r0 with id := .str (pyStr r0.id ++ "-" ++ toString n) } := by
        simp [compStep, hr0]
      refine ⟨?_, ?_, ?_⟩
      · simp [compLoop, hstep, ih1]
      · simp [compLoop, hstep, ih2]
      · intro k c hk
        cases k with
        | zero =>
            simp only [List.get?_cons_zero] at hk
            injection hk with hc
            subst hc
            refine ⟨r0, hr0, ?_⟩
            simp [compLoop, hstep]
        | succ k =>
            rw [List.get?_cons_succ] at hk
            obtain ⟨r, hr, hget⟩ := ih3 k c hk
            refine ⟨r, hr, ?_⟩
            have harith : n + 1 + k = n + (k + 1) := by omega
            rw [harith] at hget
            simp only [compLoop, hstep]
            rw [List.get?_cons_succ]
            exact hget

/-- C2: an Observation resource in the multi-component shape (component
list present, no single-quantity and no coded-value marker) with M
components yields exactly M records and no error; the k-th record's id is
the parent id followed by "-" and k, every record carries the parent's
extracted patient reference, category, and effective date, and each
record's code/display/value/unit are those of its own component
(`compCore` of that component). -/
theorem observation_component_fanout (rkvs : List (String × PyVal))
    (comps : List PyVal) (cd : PyVal × PyVal) (catv : PyVal)
    (hq : dictLookup rkvs "valueQuantity" = Option.none)
    (hcc : dictLookup rkvs "valueCodeableConcept" = Option.none)
    (hcomp : dictLookup rkvs "component" = some (.list comps))
    (hcd : safe_get_coding ((dictLookup rkvs "code").getD .none) = .ok cd)
    (hcat : obsCategoryCode (.dict rkvs) = .ok catv)
    (hok : ∀ c ∈ comps, ∃ r, compCore (.dict rkvs) catv c = .ok r) :
    (obsRecordsOf (.dict rkvs)).2 = Option.none ∧
    (obsRecordsOf (.dict rkvs)).1.length = comps.length ∧
    (∀ k c, comps.get? k = some c →
      ∃ r, compCore (.dict rkvs) catv c = .ok r ∧
        (obsRecordsOf (.dict rkvs)).1.get? k =
          some { r with
            id := .str (pyStr ((dictLookup rkvs "id").getD .none) ++ "-" ++ toString k) } ∧
        extract_reference_id ((dictLookup rkvs "subject").getD .none) = .ok r.patient_id ∧
        r.effective_date = (dictLookup rkvs "effectiveDateTime").getD .none ∧
        r.category = catv) := by
  have hred : obsRecordsOf (.dict rkvs) = compLoop (.dict rkvs) catv 0 comps := by
    simp [obsRecordsOf, pyGet, hcd, hcat, pyContains, hq, hcc, hcomp, pyIter]
  obtain ⟨h1, h2, h3⟩ := compLoop_spec (.dict rkvs) catv comps hok 0
  refine ⟨by rw [hred]; exact h1, by rw [hred]; exact h2, ?_⟩
  intro k c hk
  obtain ⟨r, hr, hget⟩ := h3 k c hk
  obtain ⟨hid, hpid, heff, hcatr⟩ := compCore_ok_fields rkvs catv c r hr
  refine ⟨r, hr, ?_, hpid, heff, hcatr⟩
  rw [hred]
  rw [Nat.zero_add] at hget
  rw [← hid]
  exact hget

/-- Systolic component of the blood-pressure resource below. -/
def bpSystolic : PyVal := .dict [
  ("code", .dict [("coding", .list
    [.dict [("code", .str "8480-6"), ("display", .str "Systolic")]])]),
  ("valueQuantity", .dict [("value", .int 120), ("unit", .str "mmHg")])]

/-- Diastolic component of the blood-pressure resource below. -/
def bpDiastolic : PyVal := .dict [
  ("code", .dict [("coding", .list
    [.dict [("code", .str "8462-4"), ("display", .str "Diastolic")]])]),
  ("valueQuantity", .dict [("value", .int 80), ("unit", .str "mmHg")])]

/-- The blood-pressure Observation resource of spec §8 scenario 8: parent
id "obs-1" with a two-entry component list (systolic 120 mmHg, diastolic
80 mmHg). -/
def bpResKvs : List (String × PyVal) := [
  ("resourceType", .str "Observation"),
  ("id", .str "obs-1"),
  ("subject", .dict [("reference", .str "urn:uuid:p1")]),
  ("effectiveDateTime", .str "2020-05-01"),
  ("category", .list [.dict [("coding", .list [.dict [("code", .str "vital-signs")]])]]),
  ("code", .dict [("coding", .list
    [.dict [("code", .str "85354-9"), ("display", .str "Blood Pressure")]])]),
  ("component", .list [bpSystolic, bpDiastolic])]

/-- Witness for C2: the blood-pressure document fans out to two rows with
ids "obs-1-0" and "obs-1-1"; the diastolic row shown explicitly. -/
theorem observation_component_fanout_witness :
    (obsRecordsOf (.dict bpResKvs)).2 = Option.none ∧
    (obsRecordsOf (.dict bpResKvs)).1.length = 2 ∧
    (∃ r, compCore (.dict bpResKvs) (.str "vital-signs") bpDiastolic = .ok r ∧
      (obsRecordsOf (.dict bpResKvs)).1.get? 1 =
        some { r with
          id := .str (pyStr ((dictLookup bpResKvs "id").getD .none) ++ "-" ++ toString 1) } ∧
      extract_reference_id ((dictLookup bpResKvs "subject").getD .none) = .ok r.patient_id ∧
      r.effective_date = (dictLookup bpResKvs "effectiveDateTime").getD .none ∧
      r.category = .str "vital-signs") := by
  have h := observation_component_fanout bpResKvs [bpSystolic, bpDiastolic]
      (.str "85354-9", .str "Blood Pressure") (.str "vital-signs")
      rfl rfl rfl rfl rfl
      (by
        intro c hc
        simp only [List.mem_cons, List.mem_singleton, List.not_mem_nil, or_false] at hc
        rcases hc with hc | hc <;> subst hc <;> exact ⟨_, rfl⟩)
  exact ⟨h.1, h.2.1, h.2.2 1 bpDiastolic rfl⟩

/-- C3: the observation parser dispatches on the three structural value
markers in the fixed priority order valueQuantity, valueCodeableConcept,
component, emitting the records of exactly one branch.  (a) Whenever the
single-quantity marker is present — component list present or not — the
output is one single record with the quantity's value and unit and the
unsuffixed parent id, so no fan-out records are emitted.  (b) With no
quantity marker but a coded value present — component list present or not
— the output is one record whose value is the coded display and whose
unit is null. -/
theorem observation_value_priority :
    (∀ (rkvs vqkvs : _) (cd : PyVal × PyVal) (catv pid : PyVal),
      dictLookup rkvs "valueQuantity" = some (.dict vqkvs) →
      safe_get_coding ((dictLookup rkvs "code").getD .none) = .ok cd →
      obsCategoryCode (.dict rkvs) = .ok catv →
      extract_reference_id ((dictLookup rkvs "subject").getD .none) = .ok pid →
      obsRecordsOf (.dict rkvs) =
        ([{ id := (dictLookup rkvs "id").getD .none, patient_id := pid,
            code := cd.1, display := cd.2,
            value := (dictLookup vqkvs "value").getD .none,
            unit := (dictLookup vqkvs "unit").getD .none,
            effective_date := (dictLookup rkvs "effectiveDateTime").getD .none,
            category := catv }], Option.none)) ∧
    (∀ (rkvs : _) (vcc : PyVal) (cd p : PyVal × PyVal) (catv pid : PyVal),
      dictLookup rkvs "valueQuantity" = Option.none →
      dictLookup rkvs "valueCodeableConcept" = some vcc →
      safe_get_coding vcc = .ok p →
      safe_get_coding ((dictLookup rkvs "code").getD .none) = .ok cd →
      obsCategoryCode (.dict rkvs) = .ok catv →
      extract_reference_id ((dictLookup rkvs "subject").getD .none) = .ok pid →
      obsRecordsOf (.dict rkvs) =
        ([{ id := (dictLookup rkvs "id").getD .none, patient_id := pid,
            code := cd.1, display := cd.2,
            value := p.2, unit := .none,
            effective_date := (dictLookup rkvs "effectiveDateTime").getD .none,
            category := catv }], Option.none)) := by
  constructor
  · intro rkvs vqkvs cd catv pid hq hcd hcat hsub
    simp [obsRecordsOf, pyGet, hcd, hcat, pyContains, hq, pyGetItem,
          obsMainRecord, hsub]
  · intro rkvs vcc cd p catv pid hq hvcc hsgc hcd hcat hsub
    simp [obsRecordsOf, pyGet, hcd, hcat, pyContains, hq, hvcc, pyGetItem,
          hsgc, obsMainRecord, hsub]

/-- A malformed Observation resource carrying both a single-quantity
marker and a component list, as in spec §8 scenario 4. -/
def mixedResKvs : List (String × PyVal) := [
  ("resourceType", .str "Observation"),
  ("id", .str "obs-2"),
  ("subject", .dict [("reference", .str "urn:uuid:p1")]),
  ("valueQuantity", .dict [("value", .int 7), ("unit", .str "kg")]),
  ("component", .list [bpSystolic])]

/-- Witness for C3: on the both-markers resource the quantity branch alone
fires — one unsuffixed record with the quantity value, no fan-out. -/
theorem observation_value_priority_witness :
    obsRecordsOf (.dict mixedResKvs) =
      ([{ id := .str "obs-2", patient_id := .str "p1",
          code := .none, display := .none,
          value := .int 7, unit := .str "kg",
          effective_date := .none, category := .none }], Option.none) := by
  have h := observation_value_priority.1 mixedResKvs
      [("value", .int 7), ("unit", .str "kg")] (.none, .none) .none (.str "p1")
      rfl rfl rfl rfl
  simpa using h

/-- Auxiliary: the guarded `os.remove` leaves no database file behind,
whatever was there. -/
theorem removeIfExists_none (p : Option DBState) : removeIfExists p = Option.none := by
  cases p <;> rfl

/-- C8: the pipeline's output store is independent of whatever store
existed before the run (the database file is deleted first), so running
ingestion twice on the same input yields a store with identical rows both
times — the second run neither duplicates nor alters the first run's
rows. -/
theorem idempotent_rerun (files : List (Except String PyVal)) :
    (∀ p p' : Option DBState, dbMain files p = dbMain files p') ∧
    (∀ prior, (dbMain files (some (dbMain files prior).2)).2 = (dbMain files prior).2) := by
  constructor
  · intro p p'
    simp [dbMain, removeIfExists_none]
  · intro prior
    simp [dbMain, removeIfExists_none]

/-- Auxiliary: successful patients `to_sql` appends exactly its rows. -/
theorem insertPatients_ok {c : Conn} {rows : List PatientRec} {c' : Conn}
    (h : insertPatients c rows = .ok c') :
    c' = { c with db := { c.db with patients := c.db.patients ++ rows } } := by
  unfold insertPatients at h
  split at h
  · exact (Except.ok.injEq _ _).mp h.symm ▸ rfl
  · simp at h

/-- Auxiliary: successful conditions `to_sql` appends its rows, all of
which satisfied the NOT NULL and foreign-key constraints. -/
theorem insertConditions_ok {c : Conn} {rows : List CondRec} {c' : Conn}
    (h : insertConditions c rows = .ok c') :
    (rows.all fun r => childRowOk (parentIds c.db) c.fkOn r.patient_id) = true ∧
    c' = { c with db := { c.db with conditions := c.db.conditions ++ rows } } := by
  unfold insertConditions at h
  split at h
  · next hcond =>
      exact ⟨(Bool.and_eq_true_iff.mp hcond).1,
             (Except.ok.injEq _ _).mp h.symm ▸ rfl⟩
  · simp at h

/-- Auxiliary: as `insertConditions_ok`, for observations. -/
theorem insertObservations_ok {c : Conn} {rows : List ObsRec} {c' : Conn}
    (h : insertObservations c rows = .ok c') :
    (rows.all fun r => childRowOk (parentIds c.db) c.fkOn r.patient_id) = true ∧
    c' = { c with db := { c.db with observations := c.db.observations ++ rows } } := by
  unfold insertObservations at h
  split at h
  · next hcond =>
      exact ⟨(Bool.and_eq_true_iff.mp hcond).1,
             (Except.ok.injEq _ _).mp h.symm ▸ rfl⟩
  · simp at h

/-- Auxiliary: as `insertConditions_ok`, for encounters. -/
theorem insertEncounters_ok {c : Conn} {rows : List EncRec} {c' : Conn}
    (h : insertEncounters c rows = .ok c') :
    (rows.all fun r => childRowOk (parentIds c.db) c.fkOn r.patient_id) = true ∧
    c' = { c with db := { c.db with encounters := c.db.encounters ++ rows } } := by
  unfold insertEncounters at h
  split at h
  · next hcond =>
      exact ⟨(Bool.and_eq_true_iff.mp hcond).1,
             (Except.ok.injEq _ _).mp h.symm ▸ rfl⟩
  · simp at h

/-- Auxiliary: as `insertConditions_ok`, for medication requests. -/
theorem insertMeds_ok {c : Conn} {rows : List MedRec} {c' : Conn}
    (h : insertMeds c rows = .ok c') :
    (rows.all fun r => childRowOk (parentIds c.db) c.fkOn r.patient_id) = true ∧
    c' = { c with db :=
      { c.db with medication_requests := c.db.medication_requests ++ rows } } := by
  unfold insertMeds at h
  split at h
  · next hcond =>
      exact ⟨(Bool.and_eq_true_iff.mp hcond).1,
             (Except.ok.injEq _ _).mp h.symm ▸ rfl⟩
  · simp at h

/-- No committed child row has a null patient reference. -/
def noNullChild (db : DBState) : Bool :=
  db.conditions.all (fun r => !(isNone r.patient_id)) &&
  db.observations.all (fun r => !(isNone r.patient_id)) &&
  db.encounters.all (fun r => !(isNone r.patient_id)) &&
  db.medication_requests.all (fun r => !(isNone r.patient_id))

/-- Some parsed child record has a null patient reference. -/
def anyNullChild (dfs : DataFrames) : Bool :=
  dfs.conditions.any (fun r => isNone r.patient_id) ||
  dfs.observations.any (fun r => isNone r.patient_id) ||
  dfs.encounters.any (fun r => isNone r.patient_id) ||
  dfs.medication_requests.any (fun r => isNone r.patient_id)

/-- Auxiliary: rows passing the child-row constraint have non-null
patient references. -/
theorem all_childRowOk_nonnull {α : Type} {l : List α} {pid : α → PyVal}
    {ids : List PyVal} {fk : Bool}
    (h : (l.all fun r => childRowOk ids fk (pid r)) = true) :
    (l.all fun r => !(isNone (pid r))) = true := by
  rw [List.all_eq_true] at *
  intro x hx
  have hc := h x hx
  unfold childRowOk at hc
  exact (Bool.and_eq_true_iff.mp hc).1

/-- Auxiliary: a batch with no null reference has no row with one. -/
theorem any_null_of_not_all {α : Type} {l : List α} {pid : α → PyVal}
    (h : (l.all fun r => !(isNone (pid r))) = true) :
    (l.any fun r => isNone (pid r)) = false := by
  rw [List.all_eq_true] at h
  rw [List.any_eq_false]
  intro x hx
  have hb := h x hx
  simp at hb
  simp [hb]

/-- Auxiliary: the patients insert leaves child tables unchanged. -/
theorem noNullChild_insertPatients {c : Conn} {rows : List PatientRec} {c' : Conn}
    (h : insertPatients c rows = .ok c') (h0 : noNullChild c.db = true) :
    noNullChild c'.db = true := by
  rw [insertPatients_ok h]
  exact h0

/-- Auxiliary: a successful conditions insert preserves null-freedom. -/
theorem noNullChild_insertConditions {c : Conn} {rows : List CondRec} {c' : Conn}
    (h : insertConditions c rows = .ok c') (h0 : noNullChild c.db = true) :
    noNullChild c'.db = true := by
  obtain ⟨hall, hc'⟩ := insertConditions_ok h
  subst hc'
  have hrows := all_childRowOk_nonnull hall
  simp only [noNullChild, List.all_append] at h0 ⊢
  simp_all

/-- Auxiliary: a successful observations insert preserves null-freedom. -/
theorem noNullChild_insertObservations {c : Conn} {rows : List ObsRec} {c' : Conn}
    (h : insertObservations c rows = .ok c') (h0 : noNullChild c.db = true) :
    noNullChild c'.db = true := by
  obtain ⟨hall, hc'⟩ := insertObservations_ok h
  subst hc'
  have hrows := all_childRowOk_nonnull hall
  simp only [noNullChild, List.all_append] at h0 ⊢
  simp_all

/-- Auxiliary: a successful encounters insert preserves null-freedom. -/
theorem noNullChild_insertEncounters {c : Conn} {rows : List EncRec} {c' : Conn}
    (h : insertEncounters c rows = .ok c') (h0 : noNullChild c.db = true) :
    noNullChild c'.db = true := by
  obtain ⟨hall, hc'⟩ := insertEncounters_ok h
  subst hc'
  have hrows := all_childRowOk_nonnull hall
  simp only [noNullChild, List.all_append] at h0 ⊢
  simp_all

/-- Auxiliary: a successful medication insert preserves null-freedom. -/
theorem noNullChild_insertMeds {c : Conn} {rows : List MedRec} {c' : Conn}
    (h : insertMeds c rows = .ok c') (h0 : noNullChild c.db = true) :
    noNullChild c'.db = true := by
  obtain ⟨hall, hc'⟩ := insertMeds_ok h
  subst hc'
  have hrows := all_childRowOk_nonnull hall
  simp only [noNullChild, List.all_append] at h0 ⊢
  simp_all

/-- C10: the load phase fails closed on a null patient reference — every
child table's patient_id column is NOT NULL with an enforced foreign key,
so a parsed child record with a null reference makes the load raise
(whole-run error) and that record is never committed: starting from any
committed state with no null child references, the state after the failed
load still has none. -/
theorem load_fails_closed_on_null_ref (c : Conn) (dfs : DataFrames)
    (h0 : noNullChild c.db = true) (hnull : anyNullChild dfs = true) :
    (∃ e, (load_data c dfs).1 = .error e) ∧
    noNullChild (load_data c dfs).2.1.db = true := by
  cases h1 : insertPatients c dfs.patients with
  | error e =>
      simp only [load_data, h1]
      exact ⟨⟨e, rfl⟩, h0⟩
  | ok c1 =>
      have n1 := noNullChild_insertPatients h1 h0
      cases h2 : insertConditions c1 dfs.conditions with
      | error e =>
          simp only [load_data, h1, h2]
          exact ⟨⟨e, rfl⟩, n1⟩
      | ok c2 =>
          have n2 := noNullChild_insertConditions h2 n1
          cases h3 : insertObservations c2 dfs.observations with
          | error e =>
              simp only [load_data, h1, h2, h3]
              exact ⟨⟨e, rfl⟩, n2⟩
          | ok c3 =>
              have n3 := noNullChild_insertObservations h3 n2
              cases h4 : insertEncounters c3 dfs.encounters with
              | error e =>
                  simp only [load_data, h1, h2, h3, h4]
                  exact ⟨⟨e, rfl⟩, n3⟩
              | ok c4 =>
                  have n4 := noNullChild_insertEncounters h4 n3
                  cases h5 : insertMeds c4 dfs.medication_requests with
                  | error e =>
                      simp only [load_data, h1, h2, h3, h4, h5]
                      exact ⟨⟨e, rfl⟩, n4⟩
                  | ok c5 =>
                      exfalso
                      have a2 := any_null_of_not_all
                        (all_childRowOk_nonnull (insertConditions_ok h2).1)
                      have a3 := any_null_of_not_all
                        (all_childRowOk_nonnull (insertObservations_ok h3).1)
                      have a4 := any_null_of_not_all
                        (all_childRowOk_nonnull (insertEncounters_ok h4).1)
                      have a5 := any_null_of_not_all
                        (all_childRowOk_nonnull (insertMeds_ok h5).1)
                      unfold anyNullChild at hnull
                      rw [a2, a3, a4, a5] at hnull
                      simp at hnull

/-- A parse result containing one condition row whose patient reference
is null (an unresolvable subject). -/
def nullRefCond : CondRec :=
  { id := .str "c1", patient_id := .none, code := .none, display := .none,
    clinical_status := .none, onset_date := .none }

/-- A parse result whose only row is the null-reference condition. -/
def nullRefDfs : DataFrames :=
  { patients := [], conditions := [nullRefCond], observations := [],
    encounters := [], medication_requests := [] }

/-- Witness for C10: on a fresh schema, loading a batch containing a
null-reference condition row raises and commits no null-reference row. -/
theorem load_fails_closed_on_null_ref_witness :
    noNullChild (create_tables (connectTo Option.none)).db = true ∧
    anyNullChild nullRefDfs = true ∧
    (∃ e, (load_data (create_tables (connectTo Option.none)) nullRefDfs).1 = .error e) ∧
    noNullChild (load_data (create_tables (connectTo Option.none)) nullRefDfs).2.1.db = true :=
  ⟨rfl, rfl,
   (load_fails_closed_on_null_ref (create_tables (connectTo Option.none)) nullRefDfs rfl rfl).1,
   (load_fails_closed_on_null_ref (create_tables (connectTo Option.none)) nullRefDfs rfl rfl).2⟩

/-- Auxiliary: deduplication yields the empty list only on it. -/
theorem distinctVals_nil {xs : List PyVal} (h : distinctVals xs = []) : xs = [] := by
  cases xs with
  | nil => rfl
  | cons x l =>
      exfalso
      simp only [distinctVals] at h
      split at h
      · next hc =>
          rw [h] at hc
          simp [containsVal] at hc
      · next => simp at h

/-- Auxiliary: with foreign keys on and no committed patients, no child
row can pass the constraints. -/
theorem all_childRowOk_nil_parent {α : Type} {l : List α} {pid : α → PyVal}
    (h : (l.all fun r => childRowOk [] true (pid r)) = true) : l = [] := by
  cases l with
  | nil => rfl
  | cons x t =>
      exfalso
      rw [List.all_cons] at h
      have hx := (Bool.and_eq_true_iff.mp h).1
      simp [childRowOk, containsVal] at hx

/-- Auxiliary: after a load whose committed rows are exactly the parsed
rows, verification can only fail on the join probe, which is empty
exactly when there are no patients. -/
theorem verify_err_patients_nil (dfs : DataFrames) (e : String)
    (hv : verify_load
      ⟨⟨dfs.patients, dfs.conditions, dfs.observations,
        dfs.encounters, dfs.medication_requests⟩, true⟩ dfs = .error e) :
    dfs.patients = [] := by
  unfold verify_load at hv
  simp only [beq_self_eq_true, Bool.and_self, Bool.not_true, false_implies,
    if_false, parentIds] at hv
  rw [if_neg (by simp)] at hv
  split at hv
  · next hj =>
      have hj2 : min 5 (distinctVals (List.map (fun x => x.id) dfs.patients)).length = 0 := by
        simpa using hj
      have hL : (distinctVals (List.map (fun x => x.id) dfs.patients)).length = 0 := by
        omega
      have hD := distinctVals_nil (List.length_eq_zero.mp hL)
      exact List.map_eq_nil_iff.mp hD
  · next => simp at hv

/-- C1: if the run fails in the verification phase (row-count mismatch or
empty five-table join), the error is surfaced — the run's result is that
error — and the database left on disk holds none of the rows loaded
during the run: all five tables are empty. -/
theorem verify_failure_empty_store (files : List (Except String PyVal))
    (prior : Option DBState) (msg : String)
    (h : (dbMain files prior).1 = .error (Phase.verifying, msg)) :
    (dbMain files prior).2 = emptyDB := by
  unfold dbMain at h ⊢
  rw [removeIfExists_none] at h ⊢
  set dfs := parseMain files with hdfs
  set c0 : Conn := create_tables (connectTo Option.none) with hc0
  cases h1 : insertPatients c0 dfs.patients with
  | error e =>
      simp only [load_data, h1] at h
      simp at h
  | ok c1 =>
      cases h2 : insertConditions c1 dfs.conditions with
      | error e =>
          simp only [load_data, h1, h2] at h
          simp at h
      | ok c2 =>
          cases h3 : insertObservations c2 dfs.observations with
          | error e =>
              simp only [load_data, h1, h2, h3] at h
              simp at h
          | ok c3 =>
              cases h4 : insertEncounters c3 dfs.encounters with
              | error e =>
                  simp only [load_data, h1, h2, h3, h4] at h
                  simp at h
              | ok c4 =>
                  cases h5 : insertMeds c4 dfs.medication_requests with
                  | error e =>
                      simp only [load_data, h1, h2, h3, h4, h5] at h
                      simp at h
                  | ok c5 =>
                      simp only [load_data, h1, h2, h3, h4, h5] at h ⊢
                      have e1 := insertPatients_ok h1
                      have hc0' : c0 = { db := emptyDB, fkOn := true } := rfl
                      rw [hc0'] at e1
                      simp only [emptyDB, List.nil_append] at e1
                      subst e1
                      obtain ⟨hall2, e2⟩ := insertConditions_ok h2
                      subst e2
                      obtain ⟨hall3, e3⟩ := insertObservations_ok h3
                      subst e3
                      obtain ⟨hall4, e4⟩ := insertEncounters_ok h4
                      subst e4
                      obtain ⟨hall5, e5⟩ := insertMeds_ok h5
                      subst e5
                      simp only [parentIds, List.nil_append, List.map_nil]
                        at hall2 hall3 hall4 hall5
                      simp only [create_indexes, List.nil_append] at h ⊢
                      cases hv : verify_load
                          ⟨⟨dfs.patients, dfs.conditions, dfs.observations,
                            dfs.encounters, dfs.medication_requests⟩, true⟩ dfs with
                      | ok u =>
                          rw [hv] at h
                          simp at h
                      | error everr =>
                          rw [hv] at h
                          have hp : dfs.patients = [] :=
                            verify_err_patients_nil dfs everr hv
                          rw [hp] at hall2 hall3 hall4 hall5
                          simp only [List.map_nil] at hall2 hall3 hall4 hall5
                          have hcn := all_childRowOk_nil_parent
                            hall2
                          have hon := all_childRowOk_nil_parent
                            hall3
                          have hen := all_childRowOk_nil_parent
                            hall4
                          have hmn := all_childRowOk_nil_parent
                            hall5
                          simp [hp, hcn, hon, hen, hmn, emptyDB]

/-- Witness for C1: on an empty input batch the join probe returns no
rows, the run surfaces the verification error, and the store is empty. -/
theorem verify_failure_empty_store_witness :
    (dbMain [] Option.none).1 =
      .error (Phase.verifying, "Foreign key relationship test failed!") ∧
    (dbMain [] Option.none).2 = emptyDB :=
  ⟨rfl, verify_failure_empty_store [] Option.none
    "Foreign key relationship test failed!" rfl⟩

end FhirETL
